import Mathlib

/-!
Shallow embedding of torch/_dynamo/repro/aoti.py, the AOTInductor
crash/accuracy repro capture and replay harness.  Pure control flow of
the module is modelled directly; external black boxes that the module
calls (torch.export.export, compile_fx_aot, aot_load, the minifier, the
same_two_models comparison, torch.cuda.synchronize) are modelled as
abstract trace events and oracle parameters, following the contracts
the module relies on.
-/

namespace AotiRepro

/-- Metadata of a tensor argument: shape, stride, dtype, and whether it
lives on a CUDA device (the arg.is_cuda test in repro_run). -/
structure TensorMeta where
  shape : List Nat
  stride : List Nat
  dtype : String
  isCuda : Bool
deriving DecidableEq

/-- A Python runtime value that can appear as a graph input in
generate_compiler_repro_string: a plain int, a SymInt carrying a
concrete observed value, a tensor, None, or some other scalar such as a
float (pyFloat, whose payload only serves to distinguish values), which
the encoder dispatch does not recognize. -/
inductive PyValue where
  | pyInt (n : Int)
  | pySymInt (name : String) (value : Int)
  | pyTensor (meta : TensorMeta)
  | pyNone
  | pyFloat (value : Int)
deriving DecidableEq

/-- One statement emitted by the InputWriter half of the value codec:
writer.symint, writer.tensor, or writer.const, together with the
placeholder name it targets. -/
inductive WriterStmt where
  | symintStmt (placeholder : String) (value : Int)
  | tensorStmt (placeholder : String) (meta : TensorMeta)
  | constStmt (placeholder : String)
deriving DecidableEq

/-- Placeholder name targeted by a writer statement. -/
def WriterStmt.placeholder : WriterStmt → String
  | .symintStmt p _ => p
  | .tensorStmt p _ => p
  | .constStmt p => p

/-- Encoding of a single graph input, following the dispatch in the
loop of generate_compiler_repro_string: ints and SymInts go to
writer.symint, tensors to writer.tensor, None to writer.const, and
anything else raises TypeError. -/
def encodeArg (placeholder : String) (arg : PyValue) : Except String WriterStmt :=
  match arg with
  | .pyInt n => .ok (.symintStmt placeholder n)
  | .pySymInt _ v => .ok (.symintStmt placeholder v)
  | .pyTensor m => .ok (.tensorStmt placeholder m)
  | .pyNone => .ok (.constStmt placeholder)
  | .pyFloat _ => .error "arg is neither SymInt/int nor torch.Tensor"

/-- Encoding of the whole input list, as the loop over
zip(fx_placeholder_targets(gm), args): one statement per zipped pair,
in placeholder order, aborting with TypeError on the first
unrecognized argument. -/
def encodeInputs : List (String × PyValue) → Except String (List WriterStmt)
  | [] => .ok []
  | (p, a) :: rest =>
    match encodeArg p a with
    | .error e => .error e
    | .ok s =>
      match encodeInputs rest with
      | .error e => .error e
      | .ok ss => .ok (s :: ss)

/-- Modelled from the spec: the InputReader half of the value codec
lives in torch._dynamo.debug_utils, which is not under src/.  Per the
spec it replays each emitted statement and appends the reconstructed
value to its args list: a symint statement binds the concrete integer
with no residual symbolic constraint, a tensor statement rebuilds a
tensor with the recorded shape/stride/dtype/device, and a const
statement yields the no-value constant. -/
def decodeStmt : WriterStmt → PyValue
  | .symintStmt _ v => .pyInt v
  | .tensorStmt _ m => .pyTensor m
  | .constStmt _ => .pyNone

/-- Decoding of an entire statement stream in emission order (the
load_args replay performed inside repro_common). -/
def decodeStmts (ss : List WriterStmt) : List PyValue :=
  ss.map decodeStmt

/-- Value a decoded input is expected to take, given the captured
argument: ints and SymInts come back as their concrete integer,
tensors as their metadata, None as None. -/
def expectedDecode : PyValue → PyValue
  | .pyInt n => .pyInt n
  | .pySymInt _ v => .pyInt v
  | .pyTensor m => .pyTensor m
  | .pyNone => .pyNone
  | .pyFloat v => .pyFloat v

/-- External effects performed while replaying, in program order. -/
inductive Event where
  | exportEvent
  | compileEvent
  | loadEvent
  | execEager
  | execCompiled
  | syncEvent
  | minifierEvent
deriving DecidableEq

/-- Result of a replay command. -/
inductive Outcome where
  | ok
  | gotArgs (args : List PyValue)
  | unsupportedDevice (device : String)
  | accuracyError (msg : String)
deriving DecidableEq

/-- Parsed replay options relevant to the modelled commands. -/
structure Options where
  device : String
  accuracy : String
  checkStr : Option String
deriving DecidableEq

/-- Abstract environment for one replay: the declared input-format
version of load_args, the serialized input statements it replays, and
the verdict of the external same_two_models comparison oracle. -/
structure ReproEnv where
  version : Option Int
  stmts : List WriterStmt
  compareOk : Bool
deriving DecidableEq

/-- True when the first character list occurs contiguously inside the
second. -/
def charsInfix (needle : List Char) : List Char → Bool
  | [] => needle.isEmpty
  | c :: rest => needle.isPrefixOf (c :: rest) || charsInfix needle rest

/-- Test mirroring the Python expression needle in haystack. -/
def strContains (haystack needle : String) : Bool :=
  charsInfix needle.toList haystack.toList

/-- Test mirroring the Python expression s.startswith(p). -/
def strStartsWith (s p : String) : Bool :=
  p.toList.isPrefixOf s.toList

/-- Device validation shared by repro_run and repro_minify: the code
raises RuntimeError when device is neither cpu nor cuda-prefixed. -/
def deviceSupported (device : String) : Bool :=
  device == "cpu" || strStartsWith device "cuda"

/-- Version check at the top of repro_common: a load_args without the
_version attribute warns, a version greater than 0 warns, any other
version passes silently, and nothing in this block raises. -/
def versionWarnings (version : Option Int) : List String :=
  match version with
  | none => ["load_args does not have a _version attribute"]
  | some v =>
    if v > 0 then ["load_args version is newer than supported version 0"] else []

/-- Result of repro_common: the warnings it logged, the external
effects it performed, and the decoded call tuple. -/
structure CommonResult where
  warnings : List String
  events : List Event
  args : List PyValue
deriving DecidableEq

/-- repro_common: emit the version warnings, replay load_args to decode
the inputs in order into the call tuple, and re-export the module (an
external effect), then enable the intermediate-hooks debug flag. -/
def repro_common (env : ReproEnv) : CommonResult :=
  { warnings := versionWarnings env.version
    events := [Event.exportEvent]
    args := decodeStmts env.stmts }

/-- True when some decoded argument is a tensor on CUDA: the need_sync
loop of repro_run. -/
def needSync (args : List PyValue) : Bool :=
  args.any fun a =>
    match a with
    | .pyTensor m => m.isCuda
    | _ => false

/-- repro_run: after repro_common, validate the device, compile and
load the artifact, then either compare compiled against eager on the
same inputs via the external same_two_models oracle, raising
AccuracyError when they disagree (accuracy mode), or execute the
compiled artifact once and synchronize afterwards when any input
tensor is on CUDA (crash-detection mode). -/
def repro_run (options : Options) (env : ReproEnv) : List Event × Outcome :=
  let common := repro_common env
  if deviceSupported options.device then
    if options.accuracy ≠ "" then
      if env.compareOk then
        (common.events ++
          [Event.compileEvent, Event.loadEvent, Event.execEager, Event.execCompiled],
         Outcome.ok)
      else
        (common.events ++
          [Event.compileEvent, Event.loadEvent, Event.execEager, Event.execCompiled],
         Outcome.accuracyError "Bad accuracy detected")
    else
      if needSync common.args then
        (common.events ++
          [Event.compileEvent, Event.loadEvent, Event.execCompiled, Event.syncEvent],
         Outcome.ok)
      else
        (common.events ++ [Event.compileEvent, Event.loadEvent, Event.execCompiled],
         Outcome.ok)
  else
    (common.events, Outcome.unsupportedDevice options.device)

/-- repro_get_args: repro_common and return the reconstructed
(module, args) pair; there is no device validation of any kind on this
path. -/
def repro_get_args (_options : Options) (env : ReproEnv) : List Event × Outcome :=
  let common := repro_common env
  (common.events, Outcome.gotArgs common.args)

/-- repro_minify: after repro_common, validate the device exactly as
repro_run does, then hand the module_fails oracle and dump_state
callback to the external minifier. -/
def repro_minify (options : Options) (env : ReproEnv) : List Event × Outcome :=
  let common := repro_common env
  if deviceSupported options.device then
    (common.events ++ [Event.minifierEvent], Outcome.ok)
  else
    (common.events, Outcome.unsupportedDevice options.device)

/-- module_fails, the failure oracle handed to the minifier: compile,
load and execute once; return False when nothing raises; on an
exception e, return False when a check_str is set that does not occur
in repr(e), and True otherwise.  The compile+load+execute attempt is
abstracted by its result: none for no exception, some r for an
exception whose textual representation is r. -/
def module_fails (excRepr : Option String) (check_str : Option String) : Bool :=
  match excRepr with
  | none => false
  | some e =>
    match check_str with
    | none => true
    | some c => strContains e c

/-- Subcommands registered on the argument parser inside run_repro:
run, minify, get_args, and minifier-query. -/
def registeredCommands : List String :=
  ["run", "minify", "get_args", "minifier-query"]

/-- Functions that appear as values of the COMMAND_FNS dispatch table
at the bottom of run_repro. -/
inductive CommandFn where
  | minifyFn
  | runFn
  | getArgsFn
deriving DecidableEq

/-- The COMMAND_FNS dispatch table of run_repro; a parsed command with
no entry makes the final lookup raise KeyError, modelled as none. -/
def COMMAND_FNS (command : String) : Option CommandFn :=
  if command = "minify" then some CommandFn.minifyFn
  else if command = "run" then some CommandFn.runFn
  else if command = "get_args" then some CommandFn.getArgsFn
  else none

/-- Keyword-argument handling and command dispatch of run_repro: each
unrecognized keyword argument produces one warning and is otherwise
ignored, and dispatch looks the parsed command up in COMMAND_FNS
independently of those keywords. -/
def run_repro_model (command : String) (extraKwargs : List String) :
    List String × Option CommandFn :=
  (extraKwargs.map fun k => "Unrecognized kwarg " ++ k, COMMAND_FNS command)

lemma encodeArg_ok_placeholder (p : String) (a : PyValue) (s : WriterStmt)
    (h : encodeArg p a = Except.ok s) : s.placeholder = p := by
  cases a <;> simp [encodeArg] at h <;> simp [← h, WriterStmt.placeholder]

lemma encodeArg_ok_decode (p : String) (a : PyValue) (s : WriterStmt)
    (h : encodeArg p a = Except.ok s) : decodeStmt s = expectedDecode a := by
  cases a <;> simp [encodeArg] at h <;> simp [← h, decodeStmt, expectedDecode]

/-- C1: module_fails returns false when the compile+load+execute
attempt raises nothing; when an exception with textual representation
e is raised, it returns true when no check_str is set, and for a set
check_str it returns exactly the substring test of check_str against
e, so a non-matching filter makes the event a non-failure. -/
theorem c1_module_fails_oracle (e c : String) :
    module_fails none none = false ∧
    module_fails none (some c) = false ∧
    module_fails (some e) none = true ∧
    module_fails (some e) (some c) = strContains e c :=
  ⟨rfl, rfl, rfl, rfl⟩

/-- Witness for C1 at the concrete scenario of an artifact raising a
kernel-launch RuntimeError, with a matching and a non-matching
check_str filter. -/
theorem c1_module_fails_oracle_witness :
    module_fails (some "RuntimeError: kernel launch failed") (some "kernel launch") = true ∧
    module_fails (some "RuntimeError: kernel launch failed") (some "segfault") = false ∧
    module_fails none (some "kernel launch") = false := by
  refine ⟨?_, ?_, ?_⟩
  · rw [(c1_module_fails_oracle "RuntimeError: kernel launch failed" "kernel launch").2.2.2]
    decide
  · rw [(c1_module_fails_oracle "RuntimeError: kernel launch failed" "segfault").2.2.2]
    decide
  · exact (c1_module_fails_oracle "" "kernel launch").2.1

/-- C2 counterexample: invoking run with the unrecognized device tpu
does end in the unsupported-device error, but the export step of
repro_common has already run by the time the device is validated, so
the claim that no export is attempted is false. -/
theorem c2_export_attempted :
    (repro_run ⟨"tpu", "", none⟩ ⟨some 0, [], true⟩).2 =
      Outcome.unsupportedDevice "tpu" ∧
    Event.exportEvent ∈ (repro_run ⟨"tpu", "", none⟩ ⟨some 0, [], true⟩).1 := by
  decide

/-- C2 amended: with a device that is neither cpu nor cuda-prefixed,
the run command fails with the unsupported-device error, and neither
compilation, loading, nor execution of the compiled artifact is
attempted; export, however, has already happened inside repro_common
before the device check. -/
theorem c2_unsupported_device_blocks_compilation
    (options : Options) (env : ReproEnv)
    (h : deviceSupported options.device = false) :
    (repro_run options env).2 = Outcome.unsupportedDevice options.device ∧
    Event.compileEvent ∉ (repro_run options env).1 ∧
    Event.loadEvent ∉ (repro_run options env).1 ∧
    Event.execCompiled ∉ (repro_run options env).1 ∧
    (repro_run options env).1 = [Event.exportEvent] := by
  simp [repro_run, repro_common, h]

/-- Witness for C2 at device tpu. -/
theorem c2_unsupported_device_blocks_compilation_witness :
    deviceSupported "tpu" = false ∧
    (repro_run ⟨"tpu", "accuracy", none⟩ ⟨none, [], true⟩).2 =
      Outcome.unsupportedDevice "tpu" :=
  ⟨by decide,
   (c2_unsupported_device_blocks_compilation ⟨"tpu", "accuracy", none⟩
      ⟨none, [], true⟩ (by decide)).1⟩

/-- C3: the argument parser inside run_repro registers the
minifier-query subcommand, but the COMMAND_FNS dispatch table has no
entry for it, so dispatching that command fails with a KeyError lookup
failure instead of running the repro with inverted polarity. -/
theorem c3_minifier_query_dispatch_gap :
    "minifier-query" ∈ registeredCommands ∧
    COMMAND_FNS "minifier-query" = none ∧
    (run_repro_model "minifier-query" []).2 = none := by
  decide

/-- C4: with a supported device and a non-empty accuracy mode, the
eager module and the compiled artifact both run on the same decoded
inputs, and a comparison failure surfaces as the distinct
AccuracyError, not as any other outcome. -/
theorem c4_accuracy_mode_raises_accuracy_error
    (options : Options) (env : ReproEnv)
    (hdev : deviceSupported options.device = true)
    (hacc : options.accuracy ≠ "")
    (hcmp : env.compareOk = false) :
    Event.execEager ∈ (repro_run options env).1 ∧
    Event.execCompiled ∈ (repro_run options env).1 ∧
    (repro_run options env).2 = Outcome.accuracyError "Bad accuracy detected" := by
  simp [repro_run, repro_common, hdev, hacc, hcmp]

/-- Witness for C4: accuracy mode on cpu with a failing comparison. -/
theorem c4_accuracy_mode_raises_accuracy_error_witness :
    deviceSupported "cpu" = true ∧
    (repro_run ⟨"cpu", "accuracy", none⟩ ⟨some 0, [], false⟩).2 =
      Outcome.accuracyError "Bad accuracy detected" :=
  ⟨by decide,
   (c4_accuracy_mode_raises_accuracy_error ⟨"cpu", "accuracy", none⟩
      ⟨some 0, [], false⟩ (by decide) (by decide) (by decide)).2.2⟩

/-- C5: with a supported device and the empty accuracy mode, the
compiled artifact is executed exactly once, the run succeeds, and the
trace ends with a synchronization placed immediately after that single
execution exactly when some decoded input tensor lives on CUDA. -/
theorem c5_crash_mode_single_exec_and_sync
    (options : Options) (env : ReproEnv)
    (hdev : deviceSupported options.device = true)
    (hacc : options.accuracy = "") :
    (repro_run options env).1 =
      [Event.exportEvent, Event.compileEvent, Event.loadEvent, Event.execCompiled]
        ++ (if needSync (decodeStmts env.stmts) then [Event.syncEvent] else []) ∧
    ((repro_run options env).1).count Event.execCompiled = 1 ∧
    (repro_run options env).2 = Outcome.ok := by
  cases hn : needSync (decodeStmts env.stmts) <;>
    simp [repro_run, repro_common, hdev, hacc, hn, List.count_cons]

/-- Witness for C5: a cpu run over one non-CUDA tensor input and one
symint input, where no synchronization is emitted. -/
theorem c5_crash_mode_single_exec_and_sync_witness :
    deviceSupported "cpu" = true ∧
    (repro_run ⟨"cpu", "", none⟩
        ⟨some 0, [WriterStmt.tensorStmt "p0" ⟨[4, 4], [4, 1], "f32", false⟩,
                  WriterStmt.symintStmt "p1" 4], true⟩).1 =
      [Event.exportEvent, Event.compileEvent, Event.loadEvent, Event.execCompiled]
        ++ (if needSync (decodeStmts
              [WriterStmt.tensorStmt "p0" ⟨[4, 4], [4, 1], "f32", false⟩,
               WriterStmt.symintStmt "p1" 4]) then [Event.syncEvent] else []) :=
  ⟨by decide,
   (c5_crash_mode_single_exec_and_sync ⟨"cpu", "", none⟩
      ⟨some 0, [WriterStmt.tensorStmt "p0" ⟨[4, 4], [4, 1], "f32", false⟩,
                WriterStmt.symintStmt "p1" 4], true⟩ (by decide) rfl).1⟩

/-- C6: the version check of repro_common only warns and never raises:
a missing version warns, a version greater than 0 warns, every other
version passes silently, and the decoded call tuple produced by
repro_common is the same for every declared version. -/
theorem c6_version_check_never_fatal
    (v : Int) (w : Option Int) (ss : List WriterStmt) (cmp : Bool) :
    versionWarnings none ≠ [] ∧
    (versionWarnings (some v) ≠ [] ↔ 0 < v) ∧
    (repro_common ⟨w, ss, cmp⟩).args = decodeStmts ss := by
  refine ⟨by simp [versionWarnings], ?_, rfl⟩
  by_cases h : 0 < v <;> simp [versionWarnings, h]

/-- C7 counterexample: a non-None scalar constant, here a Python
float, is not encoded as a const placeholder marker; the encoder
raises TypeError on it. -/
theorem c7_scalar_constant_rejected :
    encodeArg "p0" (PyValue.pyFloat 1) =
      Except.error "arg is neither SymInt/int nor torch.Tensor" :=
  rfl

/-- C7 amended: tensors, plain and symbolic integers, and the None
constant all encode successfully, None as a payload-free const
placeholder marker; any other scalar constant is rejected with a
TypeError rather than encoded. -/
theorem c7_encode_tagged_union
    (p : String) (n : Int) (nm : String) (m : TensorMeta) (q : Int) :
    encodeArg p (PyValue.pyInt n) = Except.ok (WriterStmt.symintStmt p n) ∧
    encodeArg p (PyValue.pySymInt nm n) = Except.ok (WriterStmt.symintStmt p n) ∧
    encodeArg p (PyValue.pyTensor m) = Except.ok (WriterStmt.tensorStmt p m) ∧
    encodeArg p PyValue.pyNone = Except.ok (WriterStmt.constStmt p) ∧
    encodeArg p (PyValue.pyFloat q) =
      Except.error "arg is neither SymInt/int nor torch.Tensor" :=
  ⟨rfl, rfl, rfl, rfl, rfl⟩

/-- C8: every unknown keyword argument to run_repro yields exactly one
warning, and command dispatch is unchanged by the presence of the
unknown keywords. -/
theorem c8_unknown_kwargs_nonfatal (command : String) (kwargs : List String) :
    ((run_repro_model command kwargs).1).length = kwargs.length ∧
    (run_repro_model command kwargs).2 = (run_repro_model command []).2 := by
  simp [run_repro_model]

/-- C9: when every zipped placeholder/argument pair encodes
successfully, the emitted statements follow the placeholder order
exactly, and decoding the statement stream yields the expected values
in that same order, so the call tuple built by repro_common preserves
positional correspondence for any mix of input kinds. -/
theorem c9_order_preservation (ps : List String) (as : List PyValue)
    (ss : List WriterStmt)
    (hlen : ps.length = as.length)
    (henc : encodeInputs (ps.zip as) = Except.ok ss) :
    ss.map WriterStmt.placeholder = ps ∧
    decodeStmts ss = as.map expectedDecode := by
  induction ps generalizing as ss with
  | nil =>
    cases as with
    | nil =>
      simp [encodeInputs] at henc
      simp [← henc, decodeStmts]
    | cons a as2 => simp at hlen
  | cons p ps2 ih =>
    cases as with
    | nil => simp at hlen
    | cons a as2 =>
      rw [List.zip_cons_cons] at henc
      cases h1 : encodeArg p a with
      | error e => simp [encodeInputs, h1] at henc
      | ok s =>
        cases h2 : encodeInputs (ps2.zip as2) with
        | error e => simp [encodeInputs, h1, h2] at henc
        | ok ss2 =>
          simp [encodeInputs, h1, h2] at henc
          obtain ⟨hph, hdec⟩ := ih as2 ss2 (by simpa using hlen) h2
          subst henc
          refine ⟨?_, ?_⟩
          · simp [List.map_cons, hph, encodeArg_ok_placeholder p a s h1]
          · simp only [decodeStmts, List.map_cons, encodeArg_ok_decode p a s h1]
            simpa [decodeStmts] using hdec

/-- Witness for C9 at the scenario of one tensor, one symbolic integer
named s0 bound to 4, and one None constant. -/
theorem c9_order_preservation_witness :
    ([WriterStmt.tensorStmt "p0" ⟨[4, 4], [4, 1], "f32", false⟩,
      WriterStmt.symintStmt "s0" 4,
      WriterStmt.constStmt "p2"].map WriterStmt.placeholder = ["p0", "s0", "p2"]) ∧
    decodeStmts [WriterStmt.tensorStmt "p0" ⟨[4, 4], [4, 1], "f32", false⟩,
                 WriterStmt.symintStmt "s0" 4,
                 WriterStmt.constStmt "p2"] =
      ([PyValue.pyTensor ⟨[4, 4], [4, 1], "f32", false⟩,
        PyValue.pySymInt "s0" 4, PyValue.pyNone].map expectedDecode) :=
  c9_order_preservation ["p0", "s0", "p2"]
    [PyValue.pyTensor ⟨[4, 4], [4, 1], "f32", false⟩,
     PyValue.pySymInt "s0" 4, PyValue.pyNone]
    [WriterStmt.tensorStmt "p0" ⟨[4, 4], [4, 1], "f32", false⟩,
     WriterStmt.symintStmt "s0" 4, WriterStmt.constStmt "p2"]
    rfl rfl

/-- C10: repro_get_args performs no device validation: for a device
string failing the validation used elsewhere, it still returns the
reconstructed arguments, while repro_run and repro_minify both reject
that same device with the unsupported-device error. -/
theorem c10_get_args_skips_device_validation
    (options : Options) (env : ReproEnv)
    (h : deviceSupported options.device = false) :
    (repro_get_args options env).2 = Outcome.gotArgs (decodeStmts env.stmts) ∧
    (repro_run options env).2 = Outcome.unsupportedDevice options.device ∧
    (repro_minify options env).2 = Outcome.unsupportedDevice options.device := by
  simp [repro_get_args, repro_run, repro_minify, repro_common, h]

/-- Witness for C10 at device tpu. -/
theorem c10_get_args_skips_device_validation_witness :
    deviceSupported "tpu" = false ∧
    (repro_get_args ⟨"tpu", "", none⟩ ⟨some 0, [WriterStmt.constStmt "p0"], true⟩).2 =
      Outcome.gotArgs [PyValue.pyNone] := by
  refine ⟨by decide, ?_⟩
  have h := (c10_get_args_skips_device_validation ⟨"tpu", "", none⟩
      ⟨some 0, [WriterStmt.constStmt "p0"], true⟩ (by decide)).1
  simpa [decodeStmts, decodeStmt] using h

end AotiRepro
